import Mathlib

/-
  Verification of the meshcli discovery correlation engine
  (meshcli/discover.py, meshcli/connection.py).

  The Python code is shallowly embedded: dictionaries become insertion-ordered
  association lists with Python's assignment semantics (assigning to an existing
  key replaces the value in place, a new key is appended), optional / missing
  dictionary entries become Option, floats produced by dividing integers by 4.0
  become Rat, and wall-clock time is passed in as an explicit argument.
-/

namespace Meshcli

/-- The "user" sub-dictionary of a node-table entry, as consumed by
get_known_nodes and find_relay_candidates: optional textual id and optional
short/long display names. -/
structure UserInfo where
  id : Option String
  longName : Option String
  shortName : Option String
deriving DecidableEq, Repr

/-- One value of interface.nodesByNum: the fields of a live node-table entry the
discovery code reads ("user" and "hopsAway"; both may be absent). -/
structure Node where
  user : Option UserInfo
  hopsAway : Option Nat
deriving DecidableEq, Repr

/-- user.get("id"): textual id when the user dict is present and has one. -/
def Node.userId (n : Node) : Option String :=
  n.user.bind UserInfo.id

/-- user.get("longName", ""): defaults to the empty string. -/
def Node.userLongName (n : Node) : String :=
  (n.user.bind UserInfo.longName).getD ""

/-- user.get("shortName", ""): defaults to the empty string. -/
def Node.userShortName (n : Node) : String :=
  (n.user.bind UserInfo.shortName).getD ""

/-- The Python format string "!{n:08x}" without its "!" prefix: lowercase hex
digits, zero-padded on the left to (at least) eight digits. -/
def hex8 (n : Nat) : String :=
  let ds := Nat.toDigits 16 n
  String.mk (List.replicate (8 - ds.length) '0' ++ ds)

/-- Python dict membership test ("key in d"), over the assoc-list model. -/
def dictHasKey (k : String) (d : List (String × α)) : Bool :=
  d.any (fun p => p.1 == k)

/-- Python dict assignment d[k] = v: replace in place when the key exists
(insertion order is kept), otherwise append the new pair at the end. -/
def dictInsert (k : String) (v : α) (d : List (String × α)) : List (String × α) :=
  if dictHasKey k d then
    d.map (fun p => if p.1 == k then (k, v) else p)
  else
    d ++ [(k, v)]

/-- Python dict lookup d.get(k): the value of the (unique) pair with key k. -/
def dictGet (k : String) (d : List (String × α)) : Option α :=
  (d.find? (fun p => p.1 == k)).map (fun p => p.2)

/-- The value stored per identifier in the known-nodes snapshot built by
get_known_nodes: long/short display names and the numeric address. -/
structure KnownNode where
  long_name : String
  short_name : String
  node_num : Nat
deriving DecidableEq, Repr

/-- Loop body of get_known_nodes: skip the local node, otherwise derive the
identifier (textual id, defaulting to "!" plus the zero-padded 8-hex-digit
address) and store the entry in the snapshot dictionary. -/
def get_known_nodes_body (localNodeNum : Nat)
    (known_nodes : List (String × KnownNode)) (entry : Nat × Node) :
    List (String × KnownNode) :=
  if entry.1 == localNodeNum then known_nodes
  else
    let node_id := entry.2.userId.getD ("!" ++ hex8 entry.1)
    dictInsert node_id
      { long_name := entry.2.userLongName
        short_name := entry.2.userShortName
        node_num := entry.1 } known_nodes

/-- get_known_nodes (discover.py lines 105-123): build the known-node snapshot
from the live table, excluding the local node. An absent interface or empty
nodesByNum yields the empty snapshot, which coincides with folding the empty
list. -/
def get_known_nodes (nodesByNum : List (Nat × Node)) (localNodeNum : Nat) :
    List (String × KnownNode) :=
  nodesByNum.foldl (get_known_nodes_body localNodeNum) []

/-- format_node_display (discover.py lines 125-139): "[Short] LongName" when
both are non-empty, the long name alone, the bracketed short name alone, or the
raw id. Python string truthiness makes "present" mean "non-empty". -/
def format_node_display (node_id : String)
    (known_nodes : List (String × KnownNode)) : String :=
  match dictGet node_id known_nodes with
  | some node_info =>
    let short := node_info.short_name
    let long_name := node_info.long_name
    if short ≠ "" ∧ long_name ≠ "" then "[" ++ short ++ "] " ++ long_name
    else if long_name ≠ "" then long_name
    else if short ≠ "" then "[" ++ short ++ "]"
    else node_id
  | none => node_id

/-- One element of the candidate list built by find_relay_candidates. -/
structure Candidate where
  id : String
  node_num : Nat
  name : String
deriving DecidableEq, Repr

/-- Loop body of find_relay_candidates: skip the local node; require
hopsAway present and equal to 0 (the Python default float("inf") never equals
0); require the address low byte to match; then append the candidate. -/
def find_relay_candidates_body (relay_node_last_byte localNodeNum : Nat)
    (known_nodes : List (String × KnownNode))
    (candidates : List Candidate) (entry : Nat × Node) : List Candidate :=
  if entry.1 == localNodeNum then candidates
  else if entry.2.hopsAway == some 0 then
    if (entry.1 &&& 0xFF) == relay_node_last_byte then
      let node_id := entry.2.userId.getD ("!" ++ hex8 entry.1)
      candidates ++
        [{ id := node_id
           node_num := entry.1
           name := format_node_display node_id known_nodes }]
    else candidates
  else candidates

/-- find_relay_candidates (discover.py lines 216-241): scan the live node table
for directly reachable nodes whose address low byte matches the observed relay
byte. An absent interface or empty nodesByNum yields [], which coincides with
folding the empty list. -/
def find_relay_candidates (relay_node_last_byte : Nat)
    (nodesByNum : List (Nat × Node)) (localNodeNum : Nat)
    (known_nodes : List (String × KnownNode)) : List Candidate :=
  nodesByNum.foldl
    (find_relay_candidates_body relay_node_last_byte localNodeNum known_nodes) []

/-- The "traceroute" sub-dictionary of a decoded packet; only snrTowards is
consumed by the correlator. An empty or snrTowards-less dict behaves the same
as an absent one for the extraction below, so both map to snrTowards = none. -/
structure Traceroute where
  snrTowards : Option (List Int)
deriving DecidableEq, Repr

/-- The "decoded" sub-dictionary of a packet: protocol tag and traceroute
payload, both optional. -/
structure Decoded where
  portnum : Option String
  traceroute : Option Traceroute
deriving DecidableEq, Repr

/-- An inbound packet as the correlator reads it: every consumed key may be
absent. "from" is modelled as fromNum (a Lean keyword clash). rxSnr is a
rational (the "Unknown" sentinel is none); snrTowards entries are raw signed
quarter-dB integers. -/
structure Packet where
  decoded : Option Decoded
  fromId : Option String
  fromNum : Option Nat
  rxSnr : Option Rat
  rxRssi : Option Int
  relay_node : Option Nat
deriving DecidableEq, Repr

/-- packet.get("decoded", \x7b\x7d).get("portnum") == "TRACEROUTE_APP". -/
def is_traceroute_app (packet : Packet) : Bool :=
  (packet.decoded.bind Decoded.portnum) == some "TRACEROUTE_APP"

/-- sender id (line 57): the textual fromId, else "!" plus the zero-padded
8-hex-digit "from" number, which itself defaults to 0. -/
def sender_id_of (packet : Packet) : String :=
  packet.fromId.getD ("!" ++ hex8 (packet.fromNum.getD 0))

/-- Raw snrTowards sequence reachable from the packet (decoded.traceroute
.snrTowards), if every level is present. -/
def snr_towards_raw (packet : Packet) : Option (List Int) :=
  (packet.decoded.bind Decoded.traceroute).bind Traceroute.snrTowards

/-- snrTowards extraction (lines 62-69): when the raw sequence is non-empty and
longer than one element, the last element divided by 4.0; otherwise absent. -/
def extract_snr_towards (packet : Packet) : Option Rat :=
  match snr_towards_raw packet with
  | none => none
  | some raw =>
    if raw ≠ [] ∧ raw.length > 1 then
      some ((((raw.getLast?).getD 0 : Int) : Rat) / 4)
    else none

/-- One entry of self.nearby_nodes (the dict appended at lines 93-103). none
models the "Unknown" sentinel for snr/rssi; timestamp is the explicit clock
argument; the full packet is retained as in the source. -/
structure DiscoveryRecord where
  id : String
  from_num : Option Nat
  snr : Option Rat
  rssi : Option Int
  snr_towards : Option Rat
  timestamp : Nat
  packet : Packet
deriving DecidableEq, Repr

/-- The record appended for one qualifying packet at clock time now. -/
def mk_discovery_record (packet : Packet) (now : Nat) : DiscoveryRecord :=
  { id := sender_id_of packet
    from_num := packet.fromNum
    snr := packet.rxSnr
    rssi := packet.rxRssi
    snr_towards := extract_snr_towards packet
    timestamp := now
    packet := packet }

/-- Correlator state: the active flag, the accumulated records, and the
known-nodes snapshot (used only for display, never stored in records). -/
structure DiscState where
  discovery_active : Bool
  nearby_nodes : List DiscoveryRecord
  known_nodes : List (String × KnownNode)
deriving DecidableEq, Repr

/-- on_traceroute_response (lines 43-103): no-op while inactive; append one
record per TRACEROUTE_APP packet; ignore every other packet. The echo /
candidate-display side effects do not touch the state. -/
def on_traceroute_response (packet : Packet) (now : Nat) (s : DiscState) :
    DiscState :=
  if s.discovery_active = false then s
  else if is_traceroute_app packet then
    { s with nearby_nodes := s.nearby_nodes ++ [mk_discovery_record packet now] }
  else s

/-- Deliver a sequence of (packet, arrival time) messages to the correlator in
order, as the pubsub bus does during the listening window. -/
def deliver (s : DiscState) (msgs : List (Packet × Nat)) : DiscState :=
  msgs.foldl (fun st m => on_traceroute_response m.1 m.2 st) s

/-- Outcome of the connection attempt: whether connection.connect returned an
interface (rather than catching an exception and returning None), and whether
waitForConfig returned without raising. -/
structure ConnectEnv where
  connects : Bool
  configOk : Bool
deriving DecidableEq, Repr

/-- NearbyNodeDiscoverer.connect (lines 29-41): success flag together with the
lines echoed to the error stream on the way. -/
def connect (e : ConnectEnv) : Bool × List String :=
  if e.connects = false then
    (false, ["Failed to connect: exception", "Failed to connect"])
  else if e.configOk = false then
    (false, ["Failed to connect: exception"])
  else (true, [])

/-- How the listening window ends: the full window elapses, the user interrupts
after the first k messages were delivered, or the transport raises after the
first k messages were delivered. -/
inductive ListenOutcome where
  | normal : ListenOutcome
  | interrupted : Nat → ListenOutcome
  | errored : Nat → ListenOutcome
deriving DecidableEq, Repr

/-- Environment of one discovery run: connection behaviour, live node table,
local address, the inbound messages of the window, and how the window ends. -/
structure SessionEnv where
  conn : ConnectEnv
  nodesByNum : List (Nat × Node)
  localNodeNum : Nat
  messages : List (Packet × Nat)
  outcome : ListenOutcome
deriving DecidableEq, Repr

/-- Observable state when discover_nearby_nodes returns: the returned list, the
active flag, whether the pubsub handler is still subscribed, whether a created
interface is still open, and the error-stream output. -/
structure SessionResult where
  result : List DiscoveryRecord
  discovery_active : Bool
  subscribed : Bool
  interface_open : Bool
  err_output : List String
deriving DecidableEq, Repr

/-- discover_nearby_nodes (lines 243-344). Connect failure returns [] before
the try block (so no subscription ever happened; an interface created but
failing waitForConfig stays open). Otherwise: snapshot the registry, subscribe,
set the active flag, clear the records, send the probe and deliver the
window's messages; a user interrupt truncates delivery after k messages and
returns what was collected; a transport error returns []. The finally block
clears the flag, unsubscribes and closes the interface on all three paths. -/
def discover_nearby_nodes (env : SessionEnv) : SessionResult :=
  let c := connect env.conn
  if c.1 = false then
    { result := []
      discovery_active := false
      subscribed := false
      interface_open := env.conn.connects
      err_output := c.2 }
  else
    let known_nodes := get_known_nodes env.nodesByNum env.localNodeNum
    let s0 : DiscState :=
      { discovery_active := true, nearby_nodes := [], known_nodes := known_nodes }
    match env.outcome with
    | ListenOutcome.normal =>
      let s := deliver s0 env.messages
      { result := s.nearby_nodes
        discovery_active := false
        subscribed := false
        interface_open := false
        err_output := [] }
    | ListenOutcome.interrupted k =>
      let s := deliver s0 (env.messages.take k)
      { result := s.nearby_nodes
        discovery_active := false
        subscribed := false
        interface_open := false
        err_output := [] }
    | ListenOutcome.errored _ =>
      { result := []
        discovery_active := false
        subscribed := false
        interface_open := false
        err_output := ["Error during interactive discovery: exception"] }

/-! Concrete inputs used by the witness theorems below. -/

/-- A TRACEROUTE_APP response matching session scenario B of the spec: sender
"!0a0b0c0d", snr 7.25, rssi -42, no relay byte, snrTowards [0, 48]. -/
def packetB : Packet :=
  { decoded := some { portnum := some "TRACEROUTE_APP"
                      traceroute := some { snrTowards := some [0, 48] } }
    fromId := some "!0a0b0c0d"
    fromNum := some 0x0a0b0c0d
    rxSnr := some (29 / 4)
    rxRssi := some (-42)
    relay_node := none }

/-- A TRACEROUTE_APP response carrying relay byte 0x05 and no signal data. -/
def packetR : Packet :=
  { decoded := some { portnum := some "TRACEROUTE_APP", traceroute := none }
    fromId := some "!00000105"
    fromNum := some 0x105
    rxSnr := none
    rxRssi := none
    relay_node := some 5 }

/-- A non-traceroute packet (text message traffic during the window). -/
def packetT : Packet :=
  { decoded := some { portnum := some "TEXT_MESSAGE_APP", traceroute := none }
    fromId := some "!00000007"
    fromNum := some 7
    rxSnr := none
    rxRssi := none
    relay_node := none }

/-- A directly reachable node with no user info. -/
def node0 : Node := { user := none, hopsAway := some 0 }

/-- A live table in which the local node 261 itself is directly reachable and
has low byte 5, alongside peer 5 which also qualifies for relay byte 5. -/
def tableR : List (Nat × Node) := [(261, node0), (5, node0)]

/-- A live table for registry-snapshot witnesses: the local node 1 plus a peer
2 with no textual id. -/
def tableK : List (Nat × Node) := [(1, node0), (2, node0)]

/-- An idle correlator state with one already-collected record. -/
def stateIdle : DiscState :=
  { discovery_active := false
    nearby_nodes := [mk_discovery_record packetR 3]
    known_nodes := [] }

/-- An active correlator state with empty records. -/
def stateActive : DiscState :=
  { discovery_active := true, nearby_nodes := [], known_nodes := [] }

/-- A session whose connection attempt fails (connect returns None). -/
def envFail : SessionEnv :=
  { conn := { connects := false, configOk := true }
    nodesByNum := []
    localNodeNum := 1
    messages := []
    outcome := ListenOutcome.normal }

/-- A session that connects, receives a qualifying and a non-qualifying
message, and is interrupted after the first message. -/
def envInt : SessionEnv :=
  { conn := { connects := true, configOk := true }
    nodesByNum := tableK
    localNodeNum := 1
    messages := [(packetR, 2), (packetT, 3)]
    outcome := ListenOutcome.interrupted 1 }

/-- The single candidate produced for relay byte 5 over tableR with local node
261: peer 5, rendered by its default identifier. -/
def candW : Candidate :=
  { id := "!00000005", node_num := 5, name := "!00000005" }

/-- Snapshot entry for a peer known only by short name "AB". -/
def knownShort : KnownNode :=
  { long_name := "", short_name := "AB", node_num := 0x0a0b0c0d }

/-- Registry containing only the short-named peer. -/
def knShort : List (String × KnownNode) := [("!0a0b0c0d", knownShort)]

/-- Snapshot entry matching session scenario C: shortName "AB", longName
"Alpha Base". -/
def knownBoth : KnownNode :=
  { long_name := "Alpha Base", short_name := "AB", node_num := 0x0a0b0c0d }

/-- Registry containing the fully named peer of scenario C. -/
def knBoth : List (String × KnownNode) := [("!0a0b0c0d", knownBoth)]

/-- The snapshot pair produced for peer 2 of tableK. -/
def kvK : String × KnownNode :=
  ("!00000002", { long_name := "", short_name := "", node_num := 2 })

/-! Helper lemmas. -/

/-- The correlator never changes the active flag. -/
theorem on_traceroute_response_active (packet : Packet) (now : Nat) (s : DiscState) :
    (on_traceroute_response packet now s).discovery_active = s.discovery_active := by
  unfold on_traceroute_response
  split
  · rfl
  · split <;> rfl

/-- While inactive, the correlator is the identity on the state. -/
theorem on_traceroute_response_inactive (packet : Packet) (now : Nat) (s : DiscState)
    (h : s.discovery_active = false) : on_traceroute_response packet now s = s := by
  simp [on_traceroute_response, h]

/-- While inactive, delivering any message sequence is the identity. -/
theorem deliver_inactive (s : DiscState) (msgs : List (Packet × Nat))
    (h : s.discovery_active = false) : deliver s msgs = s := by
  induction msgs with
  | nil => rfl
  | cons m ms ih =>
    calc deliver s (m :: ms) = deliver (on_traceroute_response m.1 m.2 s) ms := rfl
    _ = deliver s ms := by rw [on_traceroute_response_inactive m.1 m.2 s h]
    _ = s := ih

/-- While active, delivery appends exactly one record per TRACEROUTE_APP
message, in arrival order. -/
theorem deliver_nearby_nodes (msgs : List (Packet × Nat)) :
    ∀ s : DiscState, s.discovery_active = true →
      (deliver s msgs).nearby_nodes =
        s.nearby_nodes ++
          (msgs.filter (fun m => is_traceroute_app m.1)).map
            (fun m => mk_discovery_record m.1 m.2) := by
  induction msgs with
  | nil => intro s _; simp [deliver]
  | cons m ms ih =>
    intro s h
    have hstep : deliver s (m :: ms) = deliver (on_traceroute_response m.1 m.2 s) ms := rfl
    by_cases hq : is_traceroute_app m.1 = true
    · have hone : on_traceroute_response m.1 m.2 s =
          { s with nearby_nodes := s.nearby_nodes ++ [mk_discovery_record m.1 m.2] } := by
        simp [on_traceroute_response, h, hq]
      rw [hstep, hone, ih _ (by simpa using h)]
      simp [List.filter_cons, hq]
    · have hskip : on_traceroute_response m.1 m.2 s = s := by
        simp [on_traceroute_response, h, hq]
      rw [hstep, hskip, ih s h]
      simp [List.filter_cons, hq]

/-- The candidate-loop body only extends its accumulator on the right. -/
theorem find_relay_candidates_body_append (b loc : Nat)
    (kn : List (String × KnownNode)) (acc : List Candidate) (e : Nat × Node) :
    find_relay_candidates_body b loc kn acc e =
      acc ++ find_relay_candidates_body b loc kn [] e := by
  unfold find_relay_candidates_body
  split
  · simp
  · split
    · split <;> simp
    · simp

/-- Factoring the accumulator out of the candidate fold. -/
theorem foldl_find_relay_candidates_body (b loc : Nat)
    (kn : List (String × KnownNode)) (l : List (Nat × Node)) :
    ∀ acc : List Candidate,
      l.foldl (find_relay_candidates_body b loc kn) acc =
        acc ++ l.foldl (find_relay_candidates_body b loc kn) [] := by
  induction l with
  | nil => intro acc; simp
  | cons e es ih =>
    intro acc
    rw [List.foldl_cons, List.foldl_cons, ih, find_relay_candidates_body_append,
      ih (find_relay_candidates_body b loc kn [] e), List.append_assoc]

/-- Every candidate produced by the fold comes from a non-local table entry. -/
theorem find_relay_candidates_foldl_ne_local (b loc : Nat)
    (kn : List (String × KnownNode)) (l : List (Nat × Node)) :
    ∀ acc : List Candidate, (∀ c ∈ acc, c.node_num ≠ loc) →
      ∀ c ∈ l.foldl (find_relay_candidates_body b loc kn) acc, c.node_num ≠ loc := by
  induction l with
  | nil => intro acc hacc; simpa using hacc
  | cons e es ih =>
    intro acc hacc c hc
    refine ih (find_relay_candidates_body b loc kn acc e) ?_ c hc
    intro d hd
    unfold find_relay_candidates_body at hd
    split at hd
    · exact hacc d hd
    · split at hd
      · split at hd
        · rcases List.mem_append.1 hd with hmem | hmem
          · exact hacc d hmem
          · rename_i hne _ _
            have hd2 : d.node_num = e.1 := by
              simp only [List.mem_singleton] at hmem
              rw [hmem]
            rw [hd2]
            simpa using hne
        · exact hacc d hd
      · exact hacc d hd

/-- Membership after a Python-style dict assignment: every pair was already in
the dict or is the assigned pair. -/
theorem dictInsert_mem {α : Type} (k : String) (v : α) (d : List (String × α))
    (kv : String × α) (h : kv ∈ dictInsert k v d) : kv ∈ d ∨ kv = (k, v) := by
  unfold dictInsert at h
  split at h
  · rcases List.mem_map.1 h with ⟨p, hp, hpe⟩
    by_cases hk : (p.1 == k) = true
    · right
      rw [if_pos hk] at hpe
      exact hpe.symm
    · left
      rw [if_neg hk] at hpe
      rw [← hpe]
      exact hp
  · rcases List.mem_append.1 h with hmem | hmem
    · exact Or.inl hmem
    · right
      simpa using hmem

/-- A dict assignment keeps every existing key. -/
theorem dictInsert_hasKey_mono {α : Type} (k k2 : String) (v : α)
    (d : List (String × α)) (h : dictHasKey k d = true) :
    dictHasKey k (dictInsert k2 v d) = true := by
  unfold dictInsert
  split
  · rcases List.any_eq_true.1 h with ⟨p, hp, hpk⟩
    refine List.any_eq_true.2 ?_
    by_cases hk2 : (p.1 == k2) = true
    · refine ⟨(k2, v), List.mem_map.2 ⟨p, hp, by rw [if_pos hk2]⟩, ?_⟩
      have h1 : p.1 = k := by simpa using hpk
      have h2 : p.1 = k2 := by simpa using hk2
      simp [← h2, h1]
    · exact ⟨p, List.mem_map.2 ⟨p, hp, by rw [if_neg hk2]⟩, hpk⟩
  · unfold dictHasKey at h ⊢
    simp only [List.any_append, h, Bool.true_or]

/-- A dict assignment makes its own key present. -/
theorem dictInsert_hasKey_self {α : Type} (k : String) (v : α)
    (d : List (String × α)) : dictHasKey k (dictInsert k v d) = true := by
  unfold dictInsert
  split
  · rename_i hkey
    rcases List.any_eq_true.1 hkey with ⟨p, hp, hpk⟩
    refine List.any_eq_true.2 ⟨(k, v), List.mem_map.2 ⟨p, hp, by rw [if_pos hpk]⟩, by simp⟩
  · refine List.any_eq_true.2 ⟨(k, v), ?_, by simp⟩
    simp

/-- Every snapshot value produced by the fold records a non-local address. -/
theorem get_known_nodes_foldl_ne_local (loc : Nat) (l : List (Nat × Node)) :
    ∀ acc : List (String × KnownNode), (∀ kv ∈ acc, kv.2.node_num ≠ loc) →
      ∀ kv ∈ l.foldl (get_known_nodes_body loc) acc, kv.2.node_num ≠ loc := by
  induction l with
  | nil => intro acc hacc; simpa using hacc
  | cons e es ih =>
    intro acc hacc kv hkv
    refine ih (get_known_nodes_body loc acc e) ?_ kv hkv
    intro d hd
    unfold get_known_nodes_body at hd
    split at hd
    · exact hacc d hd
    · rename_i hne
      rcases dictInsert_mem _ _ _ _ hd with hmem | hmem
      · exact hacc d hmem
      · rw [hmem]
        simpa using hne

/-- The snapshot fold keeps every key already present. -/
theorem get_known_nodes_foldl_hasKey_mono (loc : Nat) (key : String)
    (l : List (Nat × Node)) :
    ∀ acc : List (String × KnownNode), dictHasKey key acc = true →
      dictHasKey key (l.foldl (get_known_nodes_body loc) acc) = true := by
  induction l with
  | nil => intro acc hacc; simpa using hacc
  | cons e es ih =>
    intro acc hacc
    refine ih (get_known_nodes_body loc acc e) ?_
    unfold get_known_nodes_body
    split
    · exact hacc
    · exact dictInsert_hasKey_mono _ _ _ _ hacc

/-- A non-local entry with no textual id contributes its default hex key. -/
theorem get_known_nodes_foldl_hasKey (loc num : Nat) (node : Node)
    (l : List (Nat × Node)) :
    ∀ acc : List (String × KnownNode), (num, node) ∈ l → num ≠ loc →
      node.userId = none →
      dictHasKey ("!" ++ hex8 num) (l.foldl (get_known_nodes_body loc) acc) = true := by
  induction l with
  | nil => intro acc hmem; simp at hmem
  | cons e es ih =>
    intro acc hmem hne hid
    rcases List.mem_cons.1 hmem with heq | hmem2
    · refine get_known_nodes_foldl_hasKey_mono loc _ es _ ?_
      unfold get_known_nodes_body
      rw [← heq]
      simp only [hne, beq_iff_eq, if_false, if_neg hne]
      rw [hid]
      exact dictInsert_hasKey_self _ _ _
    · exact ih (get_known_nodes_body loc acc e) hmem2 hne hid

/-! Claim theorems. -/

/-- C1: for every relay byte b and every registry state (a node table whose
entries never carry the local address, as registry snapshots never contain the
local node), find_relay_candidates returns exactly the peers with hopsAway = 0
whose 32-bit address satisfies (numericAddress &&& 0xFF) = b: all of them and
only them, in the registry's iteration order, hence empty when none
qualifies. -/
theorem claim_c1_find_relay_candidates (b localNodeNum : Nat)
    (kn : List (String × KnownNode)) (table : List (Nat × Node))
    (hlocal : ∀ e ∈ table, e.1 ≠ localNodeNum) :
    find_relay_candidates b table localNodeNum kn =
      (table.filter (fun e => e.2.hopsAway == some 0 && ((e.1 &&& 0xFF) == b))).map
        (fun e =>
          { id := e.2.userId.getD ("!" ++ hex8 e.1)
            node_num := e.1
            name := format_node_display (e.2.userId.getD ("!" ++ hex8 e.1)) kn }) := by
  induction table with
  | nil => rfl
  | cons e es ih =>
    have he : e.1 ≠ localNodeNum := hlocal e (List.mem_cons_self e es)
    have hes := ih (fun x hx => hlocal x (List.mem_cons_of_mem e hx))
    show List.foldl _ (find_relay_candidates_body b localNodeNum kn [] e) es = _
    rw [foldl_find_relay_candidates_body]
    have hbody : es.foldl (find_relay_candidates_body b localNodeNum kn) [] =
        find_relay_candidates b es localNodeNum kn := rfl
    rw [hbody, hes]
    by_cases h0 : (e.2.hopsAway == some 0) = true
    · by_cases hb : ((e.1 &&& 0xFF) == b) = true
      · simp [find_relay_candidates_body, he, h0, hb, List.filter_cons]
      · simp [find_relay_candidates_body, he, h0, hb, List.filter_cons]
    · simp [find_relay_candidates_body, he, h0, List.filter_cons]

/-- Witness for C1: over the two-entry table tableR with an absent local node
both qualifying peers are returned, in table order. -/
theorem claim_c1_witness :
    find_relay_candidates 5 tableR 999 [] =
      (tableR.filter (fun e => e.2.hopsAway == some 0 && ((e.1 &&& 0xFF) == 5))).map
        (fun e =>
          { id := e.2.userId.getD ("!" ++ hex8 e.1)
            node_num := e.1
            name := format_node_display (e.2.userId.getD ("!" ++ hex8 e.1)) [] }) :=
  claim_c1_find_relay_candidates 5 999 [] tableR (by decide)

/-- C2: the derived snrTowardsDb of the appended record is absent when the raw
snrTowards sequence is absent or has length at most 1, and equals the last
element divided by 4.0 when the length exceeds 1. -/
theorem claim_c2_snr_towards (packet : Packet) (now : Nat) :
    (snr_towards_raw packet = none →
      (mk_discovery_record packet now).snr_towards = none) ∧
    (∀ raw, snr_towards_raw packet = some raw →
      ((raw.length ≤ 1 → (mk_discovery_record packet now).snr_towards = none) ∧
       (1 < raw.length → ∀ x, raw.getLast? = some x →
         (mk_discovery_record packet now).snr_towards = some ((x : Rat) / 4)))) := by
  have hrec : (mk_discovery_record packet now).snr_towards =
      extract_snr_towards packet := rfl
  refine ⟨?_, ?_⟩
  · intro h
    rw [hrec]
    unfold extract_snr_towards
    rw [h]
  · intro raw hraw
    refine ⟨?_, ?_⟩
    · intro hlen
      rw [hrec]
      unfold extract_snr_towards
      rw [hraw]
      have hcond : ¬(raw ≠ [] ∧ raw.length > 1) := by
        rintro ⟨-, h2⟩
        omega
      simp only [hcond, if_false, if_neg hcond]
    · intro hlen x hx
      rw [hrec]
      unfold extract_snr_towards
      rw [hraw]
      have hne : raw ≠ [] := by
        intro hnil
        rw [hnil] at hlen
        simp at hlen
      simp [hne, hlen, hx]

/-- Witness for C2: the scenario-B sequence [0, 48] yields 48 / 4 (= 12 dB). -/
theorem claim_c2_witness :
    (mk_discovery_record packetB 7).snr_towards = some (((48 : Int) : Rat) / 4) :=
  ((claim_c2_snr_towards packetB 7).2 [0, 48] rfl).2 (by decide) 48 rfl

/-- C3: while the active flag is false the correlator is a no-op, so feeding
any message sequence leaves the records unchanged. -/
theorem claim_c3_inactive_gate (s : DiscState) (msgs : List (Packet × Nat))
    (h : s.discovery_active = false) :
    (deliver s msgs).nearby_nodes = s.nearby_nodes := by
  rw [deliver_inactive s msgs h]

/-- Witness for C3: a disabled session ignores a qualifying response. -/
theorem claim_c3_witness :
    (deliver stateIdle [(packetR, 5)]).nearby_nodes = stateIdle.nearby_nodes :=
  claim_c3_inactive_gate stateIdle [(packetR, 5)] rfl

/-- C4: while active, the final records are the initial records followed by
exactly one record per TRACEROUTE_APP message, in arrival order; messages with
any other protocol tag contribute nothing. -/
theorem claim_c4_arrival_order (s : DiscState) (msgs : List (Packet × Nat))
    (h : s.discovery_active = true) :
    (deliver s msgs).nearby_nodes =
      s.nearby_nodes ++
        (msgs.filter (fun m => is_traceroute_app m.1)).map
          (fun m => mk_discovery_record m.1 m.2) :=
  deliver_nearby_nodes msgs s h

/-- Witness for C4: an interleaving of two qualifying responses around a text
message yields exactly the two corresponding records in order. -/
theorem claim_c4_witness :
    (deliver stateActive [(packetR, 2), (packetT, 3), (packetB, 4)]).nearby_nodes =
      stateActive.nearby_nodes ++
        (([(packetR, 2), (packetT, 3), (packetB, 4)].filter
            (fun m => is_traceroute_app m.1)).map
          (fun m => mk_discovery_record m.1 m.2)) :=
  claim_c4_arrival_order stateActive [(packetR, 2), (packetT, 3), (packetB, 4)] rfl

/-- C5 counterexample: for a registry entry with only the short name "AB"
present, the display identity is the bracketed "[AB]", not the bare short name
"AB" that the claim's "equals whichever of the two is present" asserts. -/
theorem claim_c5_counterexample :
    format_node_display "!0a0b0c0d" knShort = "[AB]" ∧
    ¬ format_node_display "!0a0b0c0d" knShort = "AB" := by
  decide

/-- C5 as amended: both names present gives "[shortName] longName"; only the
long name gives the long name; only the short name gives the short name in
brackets; neither present, or an identifier not in the snapshot, gives the raw
identifier ("present" meaning non-empty). -/
theorem claim_c5_display_amended (node_id : String)
    (known_nodes : List (String × KnownNode)) :
    (∀ info, dictGet node_id known_nodes = some info →
      ((info.short_name ≠ "" → info.long_name ≠ "" →
         format_node_display node_id known_nodes =
           "[" ++ info.short_name ++ "] " ++ info.long_name) ∧
       (info.short_name = "" → info.long_name ≠ "" →
         format_node_display node_id known_nodes = info.long_name) ∧
       (info.short_name ≠ "" → info.long_name = "" →
         format_node_display node_id known_nodes =
           "[" ++ info.short_name ++ "]") ∧
       (info.short_name = "" → info.long_name = "" →
         format_node_display node_id known_nodes = node_id))) ∧
    (dictGet node_id known_nodes = none →
      format_node_display node_id known_nodes = node_id) := by
  constructor
  · intro info hget
    refine ⟨?_, ?_, ?_, ?_⟩ <;> intro hs hl <;>
      simp [format_node_display, hget, hs, hl]
  · intro hget
    simp [format_node_display, hget]

/-- Witness for C5: scenario C renders "[AB] Alpha Base". -/
theorem claim_c5_witness :
    format_node_display "!0a0b0c0d" knBoth =
      "[" ++ knownBoth.short_name ++ "] " ++ knownBoth.long_name :=
  ((claim_c5_display_amended "!0a0b0c0d" knBoth).1 knownBoth (by decide)).1
    (by decide) (by decide)

/-- C6: the snapshot built at session start never records the local node's own
numeric address (no entry carries it), and every peer whose table entry
supplies no textual id is keyed by "!" followed by the zero-padded 8-hex-digit
form of its numeric address. -/
theorem claim_c6_registry_snapshot (table : List (Nat × Node)) (localNodeNum : Nat) :
    (∀ kv ∈ get_known_nodes table localNodeNum, kv.2.node_num ≠ localNodeNum) ∧
    (∀ num node, (num, node) ∈ table → num ≠ localNodeNum → node.userId = none →
      dictHasKey ("!" ++ hex8 num) (get_known_nodes table localNodeNum) = true) := by
  constructor
  · exact get_known_nodes_foldl_ne_local localNodeNum table [] (by simp)
  · intro num node hmem hne hid
    exact get_known_nodes_foldl_hasKey localNodeNum num node table [] hmem hne hid

/-- Witness for C6: over tableK with local node 1, the only snapshot entry is
peer 2 under its default hex identifier. -/
theorem claim_c6_witness :
    kvK.2.node_num ≠ 1 ∧
    dictHasKey ("!" ++ hex8 2) (get_known_nodes tableK 1) = true :=
  ⟨(claim_c6_registry_snapshot tableK 1).1 kvK (by decide),
   (claim_c6_registry_snapshot tableK 1).2 2 node0 (by decide) (by decide) rfl⟩

/-- C7: when establishing the connection fails, discover_nearby_nodes returns
the empty result (the embedding is a total function, so no exception crosses
the session boundary) and the failure has been reported on the error stream. -/
theorem claim_c7_connect_failure (env : SessionEnv)
    (h : (connect env.conn).1 = false) :
    (discover_nearby_nodes env).result = [] ∧
    (discover_nearby_nodes env).err_output ≠ [] := by
  have herr : (connect env.conn).2 ≠ [] := by
    unfold connect at h ⊢
    rcases hb : env.conn.connects with _ | _
    · simp [hb]
    · rcases hc : env.conn.configOk with _ | _
      · simp [hb, hc]
      · simp [hb, hc] at h
  constructor
  · simp [discover_nearby_nodes, h]
  · simpa [discover_nearby_nodes, h] using herr

/-- Witness for C7: a session whose transport connect returns no interface. -/
theorem claim_c7_witness :
    (discover_nearby_nodes envFail).result = [] ∧
    (discover_nearby_nodes envFail).err_output ≠ [] :=
  claim_c7_connect_failure envFail rfl

/-- C8: whenever the connection succeeded, every exit path (window expiry,
interrupt, exception while listening) leaves the active flag cleared, the
handler unsubscribed and the interface closed; and an interrupt after k
delivered messages returns exactly the records collected from those k
messages, losing none. -/
theorem claim_c8_cleanup_and_interrupt (env : SessionEnv)
    (h : (connect env.conn).1 = true) :
    ((discover_nearby_nodes env).discovery_active = false ∧
     (discover_nearby_nodes env).subscribed = false ∧
     (discover_nearby_nodes env).interface_open = false) ∧
    (∀ k, env.outcome = ListenOutcome.interrupted k →
      (discover_nearby_nodes env).result =
        ((env.messages.take k).filter (fun m => is_traceroute_app m.1)).map
          (fun m => mk_discovery_record m.1 m.2)) := by
  have hne : ¬ (connect env.conn).1 = false := by simp [h]
  constructor
  · cases houtcome : env.outcome <;>
      simp [discover_nearby_nodes, hne, houtcome]
  · intro k hk
    have hdel := deliver_nearby_nodes (env.messages.take k)
      { discovery_active := true
        nearby_nodes := []
        known_nodes := get_known_nodes env.nodesByNum env.localNodeNum } rfl
    simpa [discover_nearby_nodes, hne, hk] using hdel

/-- Witness for C8: a connected session interrupted after one of its two
messages still reports cleanup and returns the one collected record. -/
theorem claim_c8_witness :
    (discover_nearby_nodes envInt).discovery_active = false ∧
    (discover_nearby_nodes envInt).result =
      ((envInt.messages.take 1).filter (fun m => is_traceroute_app m.1)).map
        (fun m => mk_discovery_record m.1 m.2) :=
  ⟨(claim_c8_cleanup_and_interrupt envInt rfl).1.1,
   (claim_c8_cleanup_and_interrupt envInt rfl).2 1 rfl⟩

/-- C9: a qualifying response whose relay field is present appends one record,
and that record carries the relay byte (inside its retained packet, as the
source stores the entire packet in the record). -/
theorem claim_c9_relay_byte (s : DiscState) (packet : Packet) (now : Nat) (b : Nat)
    (hact : s.discovery_active = true) (hq : is_traceroute_app packet = true)
    (hrelay : packet.relay_node = some b) :
    (on_traceroute_response packet now s).nearby_nodes =
      s.nearby_nodes ++ [mk_discovery_record packet now] ∧
    (mk_discovery_record packet now).packet.relay_node = some b := by
  constructor
  · simp [on_traceroute_response, hact, hq]
  · simpa [mk_discovery_record] using hrelay

/-- Witness for C9: the relay byte 5 of packetR reaches its stored record. -/
theorem claim_c9_witness :
    (on_traceroute_response packetR 2 stateActive).nearby_nodes =
      stateActive.nearby_nodes ++ [mk_discovery_record packetR 2] ∧
    (mk_discovery_record packetR 2).packet.relay_node = some 5 :=
  claim_c9_relay_byte stateActive packetR 2 5 rfl (by decide) rfl

/-- C10: the relay candidate resolver never returns the local node, even when
the local node's own live-table entry has hopsAway 0 and a matching low byte:
the loop skips the local entry itself. -/
theorem claim_c10_excludes_local (b localNodeNum : Nat)
    (kn : List (String × KnownNode)) (table : List (Nat × Node)) (node : Node)
    (_hmem : (localNodeNum, node) ∈ table) (_hhops : node.hopsAway = some 0)
    (_hbyte : (localNodeNum &&& 0xFF) = b) :
    ∀ c ∈ find_relay_candidates b table localNodeNum kn,
      c.node_num ≠ localNodeNum :=
  find_relay_candidates_foldl_ne_local b localNodeNum kn table [] (by simp)

/-- Witness for C10: in tableR the local node 261 itself qualifies for relay
byte 5, yet the returned candidate is peer 5, not the local node. -/
theorem claim_c10_witness : candW.node_num ≠ 261 :=
  claim_c10_excludes_local 5 261 [] tableR node0 (by decide) rfl (by decide)
    candW (by decide)

end Meshcli
